import Mathlib

/-!
Verification of the channel-metadata pipeline of this repository
(`app.py` and `m3u8_vavoo.py`), embedded shallowly: Python strings are
`String`, Python dicts (insertion-ordered, unique keys) are association
lists, fallible file writes are modelled by a success flag that leaves the
old contents in place on failure, and the wall clock / random generator
consumed by `generate_id` are explicit `Nat`-valued parameters.
-/

/-- Python `\s` on a `str` pattern: ASCII whitespace plus the Unicode
whitespace characters. -/
def pyIsSpace (c : Char) : Bool :=
  c == ' ' || c == '\t' || c == '\n' || c == '\r' || c == '\x0b' || c == '\x0c' ||
  (0x1c ≤ c.toNat && c.toNat ≤ 0x1f) || c.toNat == 0x85 || c.toNat == 0xa0 ||
  c.toNat == 0x1680 || (0x2000 ≤ c.toNat && c.toNat ≤ 0x200a) ||
  c.toNat == 0x2028 || c.toNat == 0x2029 || c.toNat == 0x202f ||
  c.toNat == 0x205f || c.toNat == 0x3000

/-- `[A-Za-z]`. -/
def isAsciiAlpha (c : Char) : Bool :=
  ('A' ≤ c && c ≤ 'Z') || ('a' ≤ c && c ≤ 'z')

/-- `[a-zA-Z0-9]`. -/
def isAsciiAlphaNum (c : Char) : Bool :=
  isAsciiAlpha c || ('0' ≤ c && c ≤ '9')

/-- Python `str.lower` on one character (ASCII range, the only range the
repository's data exercises). -/
def pyLowerChar (c : Char) : Char :=
  if 'A' ≤ c && c ≤ 'Z' then Char.ofNat (c.toNat + 32) else c

/-- Python `str.upper` on one character (ASCII range). -/
def pyUpperChar (c : Char) : Char :=
  if 'a' ≤ c && c ≤ 'z' then Char.ofNat (c.toNat - 32) else c

/-- Python `str.lower`. -/
def pyLower (s : String) : String := ⟨s.data.map pyLowerChar⟩

/-- Python `str.strip()` (whitespace on both ends). -/
def pyStrip (s : String) : String :=
  ⟨((s.data.dropWhile pyIsSpace).reverse.dropWhile pyIsSpace).reverse⟩

/-- Does `pat` occur at the start of `text`? -/
def hasPrefixChars : List Char → List Char → Bool
  | [], _ => true
  | _ :: _, [] => false
  | p :: ps, t :: ts => p == t && hasPrefixChars ps ts

/-- Does `pat` occur anywhere in `text`? -/
def hasSubChars (pat : List Char) : List Char → Bool
  | [] => pat.isEmpty
  | t :: ts => hasPrefixChars pat (t :: ts) || hasSubChars pat ts

/-- Python `sub in s` (substring containment). -/
def strContains (s sub : String) : Bool := hasSubChars sub.data s.data

/-- The last three characters of `name` in the shape matched by
`re.match(r'\s\.[A-Za-z]', last_three)` in `clean_channel_name`. -/
def markerCheck : List Char → Bool
  | [a, b, c] => pyIsSpace a && b == '.' && isAsciiAlpha c
  | _ => false

/-- `app.py:clean_channel_name`: drop the last three characters when they are
whitespace, a dot and a letter, provided the name is longer than 3. -/
def clean_channel_name (name : String) : String :=
  if 3 < name.data.length ∧ markerCheck (name.data.drop (name.data.length - 3)) then
    ⟨name.data.take (name.data.length - 3)⟩
  else name

/-- `app.py:AVAILABLE_GENRES` (28 values). -/
def AVAILABLE_GENRES : List String :=
  ["animation", "business", "classic", "comedy", "cooking", "culture",
   "documentary", "education", "entertainment", "family", "kids",
   "legislative", "lifestyle", "movies", "music", "general", "religious",
   "news", "outdoor", "relax", "series", "science", "shop", "sports",
   "travel", "weather", "xxx", "auto"]

/-- The `keywords` dict of `app.py:assign_genre`, in insertion order. -/
def keywordList : List (String × String) :=
  [("sport", "sports"), ("calcio", "sports"), ("football", "sports"),
   ("news", "news"), ("notizie", "news"), ("tg", "news"),
   ("film", "movies"), ("cinema", "movies"), ("movie", "movies"),
   ("bambini", "kids"), ("kids", "kids"), ("cartoni", "animation"),
   ("documentari", "documentary"), ("doc", "documentary"),
   ("musica", "music"), ("music", "music"),
   ("comedy", "comedy"), ("commedia", "comedy"),
   ("lifestyle", "lifestyle"), ("cucina", "cooking"), ("food", "cooking"),
   ("meteo", "weather"), ("weather", "weather"),
   ("viaggi", "travel"), ("travel", "travel"),
   ("serie", "series"), ("auto", "auto"), ("motor", "auto"),
   ("xxx", "xxx"), ("adult", "xxx")]

/-- The keyword loop of `assign_genre`: first pair whose keyword occurs in
the cleaned name wins, else the default genre. -/
def scanKeywords (clean : String) : List (String × String) → String
  | [] => "general"
  | (k, g) :: rest => if strContains clean k then g else scanKeywords clean rest

/-- `app.py:assign_genre`: exact lookup of the lower-cased cleaned name in
the genre mapping, else keyword scan, else `"general"`. -/
def assign_genre (channel_name : String) (genre_mapping : List (String × String)) : String :=
  let clean_name := pyLower (clean_channel_name channel_name)
  match genre_mapping.lookup clean_name with
  | some g => g
  | none => scanKeywords clean_name keywordList

/-- The per-category test of `m3u8_vavoo.py:get_category`:
`any(keyword.lower() in lower_name for keyword in keywords)`. -/
def catMatches (lower_name : String) (kws : List String) : Bool :=
  kws.any (fun k => strContains lower_name (pyLower k))

/-- The loop of `get_category` over `category_keywords.items()`. -/
def categoryScan (lower_name : String) : List (String × List String) → String
  | [] => "ALTRI"
  | (cat, kws) :: rest =>
    if catMatches lower_name kws then cat else categoryScan lower_name rest

/-- `m3u8_vavoo.py:get_category`. -/
def get_category (channel_name : String) (category_keywords : List (String × List String)) : String :=
  categoryScan (pyLower channel_name) category_keywords

/-- `re.sub(r"\s+\.[cs]$", "", name, flags=re.IGNORECASE)`: remove a trailing
dot-c/dot-s marker together with the whitespace run before it. -/
def stripDotCS (name : String) : String :=
  match name.data.reverse with
  | c :: '.' :: rest =>
    if (c == 'c' || c == 'C' || c == 's' || c == 'S') &&
        (match rest with | [] => false | r :: _ => pyIsSpace r) then
      ⟨(rest.dropWhile pyIsSpace).reverse⟩
    else name
  | _ => name

/-- `m3u8_vavoo.py:normalize_channel_name`. -/
def normalize_channel_name (channel_name : String) : String :=
  pyLower (pyStrip (stripDotCS channel_name))

/-- The placeholder URL built by `get_logo_url` when no logo key matches. -/
def placeholderLogo (channel_name : String) : String :=
  let clean_name := pyStrip (stripDotCS channel_name)
  let formatted_name : String := ⟨clean_name.data.map (fun c => if c == ' ' then '+' else c)⟩
  "https://placehold.co/400x400?text=" ++ formatted_name ++ "&.png"

/-- The loop of `get_logo_url` over `channel_logos.items()`: per key, try the
exact normalized match, then bidirectional containment, else move on. -/
def logoLookup (normalized_name : String) : List (String × String) → Option String
  | [] => none
  | (logo_channel, logo_url) :: rest =>
    let nk := normalize_channel_name logo_channel
    if normalized_name == nk then some logo_url
    else if strContains nk normalized_name || strContains normalized_name nk then some logo_url
    else logoLookup normalized_name rest

/-- `m3u8_vavoo.py:get_logo_url` (the code after the first `return` of the
placeholder branch is unreachable and therefore not modelled). -/
def get_logo_url (channel_name : String) (channel_logos : List (String × String)) : String :=
  match logoLookup (normalize_channel_name channel_name) channel_logos with
  | some url => url
  | none => placeholderLogo channel_name

example : clean_channel_name "Sky Sport .I" = "Sky Sport" := by decide
example : clean_channel_name "ab\t.X" = "ab" := by decide
example : clean_channel_name "Rai 1" = "Rai 1" := by decide
example : assign_genre "Sky Sport .I" [] = "sports" := by decide
example : assign_genre "Rai 1 .I" [("rai 1", "news")] = "news" := by decide
example : get_category "Unknown Channel" [("SPORT", ["sky sport"])] = "ALTRI" := by decide
example : get_category "Sky Sport .I" [("SPORT", ["sky sport"])] = "SPORT" := by decide
example : normalize_channel_name "Rai Uno .C" = "rai uno" := by decide
example : get_logo_url "sky sport" [("sky", "u1"), ("sky sport", "u2")] = "u1" := by decide
example : get_logo_url "zzz" [] = "https://placehold.co/400x400?text=zzz&.png" := by decide

/-- Uppercase hex digit of a value below 16. -/
def hexDigit (n : Nat) : Char :=
  if n < 10 then Char.ofNat (48 + n) else Char.ofNat (55 + n)

/-- UTF-8 encoding of one character, as byte values. -/
def utf8Bytes (c : Char) : List Nat :=
  let n := c.toNat
  if n < 0x80 then [n]
  else if n < 0x800 then [0xc0 + n / 0x40, 0x80 + n % 0x40]
  else if n < 0x10000 then
    [0xe0 + n / 0x1000, 0x80 + (n / 0x40) % 0x40, 0x80 + n % 0x40]
  else
    [0xf0 + n / 0x40000, 0x80 + (n / 0x1000) % 0x40, 0x80 + (n / 0x40) % 0x40,
     0x80 + n % 0x40]

/-- `urllib.parse.quote_plus` on one byte: keep `[A-Za-z0-9_.~-]`, turn a
space into `+`, percent-encode the rest with uppercase hex. -/
def quotePlusByte (b : Nat) : String :=
  if (48 ≤ b && b ≤ 57) || (65 ≤ b && b ≤ 90) || (97 ≤ b && b ≤ 122) ||
      b == 95 || b == 46 || b == 126 || b == 45 then
    String.singleton (Char.ofNat b)
  else if b == 32 then "+"
  else "%" ++ String.singleton (hexDigit (b / 16)) ++ String.singleton (hexDigit (b % 16))

/-- `urllib.parse.quote_plus` over the UTF-8 bytes of a string. -/
def pyQuotePlus (s : String) : String :=
  String.join ((s.data.map utf8Bytes).flatten.map quotePlusByte)

/-- `urlencode(params, quote_via=quote_plus)`. -/
def urlencodeQP (params : List (String × String)) : String :=
  String.intercalate "&" (params.map (fun p => pyQuotePlus p.1 ++ "=" ++ pyQuotePlus p.2))

/-- The browser user-agent literal of `app.py`. -/
def browserUA : String :=
  "Mozilla/5.0 (Windows NT 10.0; Win64; x64) AppleWebKit/537.36 (KHTML, like Gecko) Chrome/133.0.0.0 Safari/537.36"

/-- `config.json` contents (`load_config` defaults both fields to `""`). -/
structure Config where
  mediaflow_url : String
  mediaflow_psw : String
deriving DecidableEq, Repr

/-- One raw upstream entry (`sample_channels.json`): `genre` is the optional
externally supplied hint. -/
structure RawChannel where
  name : String
  url : String
  genre : Option String
deriving DecidableEq, Repr

/-- One record of `channels_data.json`, as built by `generate_channel_list`. -/
structure Channel where
  id : String
  name : String
  url : String
  genre : String
  icon : String
deriving DecidableEq, Repr

/-- The `streamInfo` object of a Stremio meta. -/
structure StreamInfo where
  url : String
  title : String
deriving DecidableEq, Repr

/-- A Stremio meta object as produced by `app.py:to_meta`. -/
structure Meta where
  id : String
  name : String
  type : String
  genres : List String
  poster : String
  posterShape : String
  background : String
  logo : String
  streamInfo : StreamInfo
deriving DecidableEq, Repr

/-- The persisted JSON documents of `app.py`, one field per file. -/
structure PState where
  config : Config
  headersFile : List (String × String)
  genreFile : List (String × String)
  iconsFile : List (String × String)
  channelsFile : List Channel
  sampleFile : Option (List RawChannel)
deriving DecidableEq, Repr

/-- `app.py:generate_id`; the wall clock and random suffix are explicit. -/
def generate_id (name : String) (t r : Nat) : String :=
  let clean_name : String := ⟨(pyLower (clean_channel_name name)).data.filter isAsciiAlphaNum⟩
  clean_name ++ "-" ++ toString t ++ "-" ++ toString r

/-- `app.py:to_meta`; `icons` is the content of `channel_icons.json`, which
the Python code re-reads inside the function. -/
def to_meta (channel : Channel) (icons : List (String × String)) (mediaflow_url mediaflow_psw : String) : Meta :=
  let channel_name := clean_channel_name channel.name
  let logo :=
    match icons.lookup channel_name with
    | some l => l
    | none => (icons.lookup channel.name).getD "https://dl.strem.io/addon-logo.png"
  let params : List (String × String) :=
    [("api_password", mediaflow_psw), ("d", channel.url),
     ("h_user-agent", browserUA),
     ("h_referer", "https://vavoo.to/"),
     ("h_origin", "https://vavoo.to")]
  let stream_url :=
    "https://" ++ mediaflow_url ++ "/proxy/hls/manifest.m3u8?" ++ urlencodeQP params
  { id := "mediaflow-" ++ channel.id
    name := channel_name
    type := "tv"
    genres := [channel.genre]
    poster := logo
    posterShape := "square"
    background := logo
    logo := logo
    streamInfo := { url := stream_url, title := channel_name } }

/-- The projection applied by `get_all_channels` to each snapshot record:
`to_meta` fed with the persisted icons and config of state `st`. -/
def metaOf (st : PState) (c : Channel) : Meta :=
  to_meta c st.iconsFile st.config.mediaflow_url st.config.mediaflow_psw

/-- `app.py:get_all_channels`: the in-memory cache slot is passed in and the
(possibly updated) slot is returned alongside the result. A config or
snapshot miss returns an empty list without filling the cache. -/
def get_all_channels (cache : Option (List Meta)) (st : PState) : List Meta × Option (List Meta) :=
  match cache with
  | some v => (v, some v)
  | none =>
    if st.config.mediaflow_url = "" ∨ st.config.mediaflow_psw = "" then ([], none)
    else if st.channelsFile = [] then ([], none)
    else
      let all := st.channelsFile.map (metaOf st)
      (all, some all)

/-- The default headers written by `generate_channel_list` when
`headers.json` is empty. -/
def defaultHeaders : List (String × String) :=
  [("User-Agent", browserUA), ("Referer", "https://vavoo.to/"), ("Origin", "https://vavoo.to")]

/-- The sample channel list written by `generate_channel_list` when
`sample_channels.json` does not exist. -/
def defaultSample : List RawChannel :=
  [⟨"Rai 1 .I", "https://example.com/rai1.m3u8", some "general"⟩,
   ⟨"Canale 5 .I", "https://example.com/canale5.m3u8", some "general"⟩,
   ⟨"Sky Sport .I", "https://example.com/skysport.m3u8", some "sports"⟩,
   ⟨"Discovery Channel .I", "https://example.com/discovery.m3u8", some "documentary"⟩]

/-- Genre resolution of one entry inside `generate_channel_list`:
`channel.get('genre') or assign_genre(...)`, then the clamp of any value
outside `AVAILABLE_GENRES` to `"general"`. -/
def resolveGenre (c : RawChannel) (genre_mapping : List (String × String)) : String :=
  let g0 :=
    match c.genre with
    | some g => if g = "" then assign_genre c.name genre_mapping else g
    | none => assign_genre c.name genre_mapping
  if g0 ∈ AVAILABLE_GENRES then g0 else "general"

/-- The per-entry loop of `generate_channel_list`: build one `Channel`
per raw entry (index `i` feeds the clock `ts` and random generator `rs`)
and extend the genre mapping first-write-wins. -/
def buildChannels (icons : List (String × String)) (ts rs : Nat → Nat) :
    Nat → List RawChannel → List Channel → List (String × String) →
    List Channel × List (String × String)
  | _, [], cd, gm => (cd, gm)
  | i, c :: rest, cd, gm =>
    let clean_name := clean_channel_name c.name
    let icon_url := (icons.lookup clean_name).getD "https://dl.strem.io/addon-logo.png"
    let genre := resolveGenre c gm
    let obj : Channel := ⟨generate_id c.name (ts i) (rs i), c.name, c.url, genre, icon_url⟩
    let gm' := if (gm.lookup clean_name).isNone then gm ++ [(clean_name, genre)] else gm
    buildChannels icons ts rs (i + 1) rest (cd ++ [obj]) gm'

/-- `app.py:generate_channel_list`. Each fallible `save_json_file` call is
given a success flag (`headersOk`, `sampleOk`, `genreOk`, `chanOk`); a failed
save leaves the old file contents in place, matching the modelled
granularity of flat-file writes. Returns the Python return value, the new
persisted state, and the new cache slot. -/
def generate_channel_list (st : PState) (cache : Option (List Meta)) (ts rs : Nat → Nat)
    (headersOk sampleOk genreOk chanOk : Bool) : Bool × PState × Option (List Meta) :=
  if st.config.mediaflow_url = "" ∨ st.config.mediaflow_psw = "" then (false, st, cache)
  else
    let headersFile' := if st.headersFile = [] ∧ headersOk = true then defaultHeaders else st.headersFile
    let sampleFile' :=
      match st.sampleFile with
      | some s => some s
      | none => if sampleOk then some defaultSample else none
    let sample_channels := sampleFile'.getD []
    let built := buildChannels st.iconsFile ts rs 0 sample_channels [] st.genreFile
    let genreFile' := if genreOk then built.2 else st.genreFile
    let st1 : PState :=
      { st with headersFile := headersFile', sampleFile := sampleFile', genreFile := genreFile' }
    if chanOk then (true, { st1 with channelsFile := built.1 }, none)
    else (false, st1, cache)

/-- Python `s.startswith(pre)`. -/
def pyStartsWith (s pre : String) : Bool := hasPrefixChars pre.data s.data

/-- The search test of the catalog route: `search in c["name"].lower()`
after `search = search.lower()`. -/
def searchPred (s : String) (c : Meta) : Bool :=
  strContains (pyLower c.name) (pyLower s)

/-- The `/catalog/{type}/{id}.json` route of `app.py` (its unused `genre`
query parameter is omitted): returns the served metas and the cache slot as
left by `get_all_channels`. -/
def catalog (ty id : String) (search : Option String) (cache : Option (List Meta)) (st : PState) :
    List Meta × Option (List Meta) :=
  if ty = "tv" ∧ pyStartsWith id "mediaflow-" = true then
    let category := (id.splitOn "-").getD 1 ""
    let p := get_all_channels cache st
    let filtered := p.1.filter (fun c => c.genres.contains category)
    match search with
    | none => (filtered, p.2)
    | some s =>
      if s = "" then (filtered, p.2)
      else (p.1.filter (searchPred s), p.2)
  else ([], cache)

example : generate_id "Sky Sport .I" 7 1234 = "skysport-7-1234" := by decide
example : resolveGenre ⟨"Sky Sport X", "u", some "bogus"⟩ [] = "general" := by decide
example : resolveGenre ⟨"Sky Sport X", "u", none⟩ [] = "sports" := by decide
example : pyQuotePlus "https://x/sky.m3u8" = "https%3A%2F%2Fx%2Fsky.m3u8" := by decide

/-- Python `str.capitalize` (ASCII range). -/
def pyCapitalize (s : String) : String :=
  match s.data with
  | [] => ""
  | c :: rest => ⟨pyUpperChar c :: rest.map pyLowerChar⟩

/-- Helper of `pyWords`: walk the characters, accumulating the current
word reversed. -/
def wordsAux : List Char → List Char → List String
  | [], acc => if acc.isEmpty then [] else [⟨acc.reverse⟩]
  | c :: cs, acc =>
    if pyIsSpace c then
      if acc.isEmpty then wordsAux cs [] else ⟨acc.reverse⟩ :: wordsAux cs []
    else wordsAux cs (c :: acc)

/-- Python `str.split()` with no argument: split on whitespace runs,
dropping empty pieces. -/
def pyWords (s : String) : List String := wordsAux s.data []

/-- Python `" ".join(ws)`. -/
def joinSpace : List String → String
  | [] => ""
  | [w] => w
  | w :: ws => w ++ " " ++ joinSpace ws

/-- `re.sub(r"\.[cs]$", "", name, flags=re.IGNORECASE)`: remove a trailing
`.c`/`.s` (no whitespace requirement, unlike `normalize_channel_name`). -/
def stripDotCSBare (name : String) : String :=
  match name.data.reverse with
  | c :: '.' :: rest =>
    if c == 'c' || c == 'C' || c == 's' || c == 'S' then ⟨rest.reverse⟩ else name
  | _ => name

/-- `m3u8_vavoo.py:sanitize_tvg_id`. -/
def sanitize_tvg_id (channel_name : String) : String :=
  let stripped := pyStrip (stripDotCSBare channel_name)
  joinSpace ((pyWords stripped).map pyCapitalize)

/-- One upstream item of the paginated catalog endpoint. -/
structure UpItem where
  name : String
  url : String
deriving DecidableEq, Repr

/-- The pagination loop of `m3u8_vavoo.py:get_channel_list`. The upstream is
modelled by the finite list of responses it gives to the successive
requests: `none` is a failed call, `some items` a successful page; once the
list is exhausted the upstream has no further items (an empty page).
Returns the accumulated items and the final cursor. -/
def fetchLoop : List (Option (List UpItem)) → Nat → List UpItem → List UpItem × Nat
  | [], cursor, acc => (acc, cursor)
  | none :: _, cursor, acc => (acc, cursor)
  | some [] :: _, cursor, acc => (acc, cursor)
  | some (i :: it) :: rest, cursor, acc =>
    fetchLoop rest (cursor + (i :: it).length) (acc ++ (i :: it))

/-- `m3u8_vavoo.py:get_channel_list`: the `"items"` value of its result. -/
def get_channel_list (responses : List (Option (List UpItem))) : List UpItem :=
  (fetchLoop responses 0 []).1

/-- The pages actually received before the loop stops: the longest prefix of
non-empty successful responses. -/
def receivedPages : List (Option (List UpItem)) → List (List UpItem)
  | [] => []
  | none :: _ => []
  | some [] :: _ => []
  | some (i :: it) :: rest => (i :: it) :: receivedPages rest

/-- One input entry of `generate_m3u` (`item.get("name", "Unknown")` and
`item.get("url")`). -/
structure M3UItem where
  name : Option String
  url : Option String
deriving DecidableEq, Repr

/-- The lines written to the playlist file for one entry of
`generate_m3u`'s loop: empty when the entry is skipped (excluded name,
unmatched include-filters, or missing/empty url). -/
def entryLines (channel_filters channel_remove : List String)
    (category_keywords : List (String × List String))
    (channel_logos : List (String × String)) (item : M3UItem) : List String :=
  let name := item.name.getD "Unknown"
  if channel_remove.any (fun w => strContains (pyLower name) (pyLower w)) then []
  else if channel_filters ≠ [] ∧
      channel_filters.any (fun w => strContains (pyLower name) (pyLower w)) = false then []
  else
    match item.url with
    | none => []
    | some original_link =>
      if original_link = "" then []
      else
        let tvg_id := sanitize_tvg_id name
        let category := get_category name category_keywords
        let logo_url := get_logo_url name channel_logos
        ["#EXTINF:-1 tvg-id=\"" ++ tvg_id ++ "\" tvg-name=\"" ++ tvg_id ++
           "\" tvg-logo=\"" ++ logo_url ++ "\" group-title=\"" ++ category ++ "\"," ++ tvg_id,
         "#EXTVLCOPT:http-user-agent=okhttp/4.11.0",
         "#EXTVLCOPT:http-origin=https://vavoo.to/",
         "#EXTVLCOPT:http-referrer=https://vavoo.to/",
         "#EXTVLCOPT:mediahubmx-signature=[$KEY$]",
         original_link]

/-- `m3u8_vavoo.py:generate_m3u`, as the lines written to the playlist
file: `none` when `items` is empty (the function returns before opening the
file), otherwise the `#EXTM3U` header followed by each entry's lines. -/
def generate_m3u (items : List M3UItem) (channel_filters channel_remove : List String)
    (category_keywords : List (String × List String))
    (channel_logos : List (String × String)) : Option (List String) :=
  if items = [] then none
  else
    some ("#EXTM3U url-tvg=\"http://epg-guide.com/it.gz\"" ::
      (items.map (entryLines channel_filters channel_remove category_keywords channel_logos)).flatten)

example : sanitize_tvg_id "sky sport UNO .c" = "Sky Sport Uno" := by decide
example : get_channel_list [some [⟨"a", "u"⟩, ⟨"b", "v"⟩], some [⟨"c", "w"⟩], none, some [⟨"d", "x"⟩]]
    = [⟨"a", "u"⟩, ⟨"b", "v"⟩, ⟨"c", "w"⟩] := by decide
example : (fetchLoop [some [⟨"a", "u"⟩, ⟨"b", "v"⟩], some [⟨"c", "w"⟩], some []] 0 []).2 = 3 := by decide
example : entryLines [] [] [] [] ⟨some "A", none⟩ = [] := by decide
example : entryLines [] [] [] [] ⟨some "A", some ""⟩ = [] := by decide

/-- Two strings with the same character data are equal. -/
theorem string_eq_of_data (a b : String) (h : a.data = b.data) : a = b :=
  String.ext h

/-- A character list of length 2 is a two-element list. -/
theorem list_len2 (l : List Char) (h : l.length = 2) : ∃ x y, l = [x, y] := by
  cases l with
  | nil => simp at h
  | cons x l1 =>
    cases l1 with
    | nil => simp at h
    | cons y l2 =>
      cases l2 with
      | nil => exact ⟨x, y, rfl⟩
      | cons z l3 => simp at h

/-- A character list of length 3 is a three-element list. -/
theorem list_len3 (l : List Char) (h : l.length = 3) : ∃ x y z, l = [x, y, z] := by
  cases l with
  | nil => simp at h
  | cons x l1 =>
    cases l1 with
    | nil => simp at h
    | cons y l2 =>
      cases l2 with
      | nil => simp at h
      | cons z l3 =>
        cases l3 with
        | nil => exact ⟨x, y, z, rfl⟩
        | cons w l4 => simp at h

/-- A successful association-list lookup returns one of the stored values. -/
theorem lookup_mem_snd : ∀ (l : List (String × String)) (k v : String),
    List.lookup k l = some v → v ∈ l.map Prod.snd := by
  intro l
  induction l with
  | nil => intro k v h; simp [List.lookup] at h
  | cons p rest ih =>
    intro k v h
    obtain ⟨a, b⟩ := p
    cases hk : k == a with
    | true =>
      simp [List.lookup, hk] at h
      subst h
      simp
    | false =>
      simp [List.lookup, hk] at h
      simp only [List.map_cons, List.mem_cons]
      exact Or.inr (ih k v h)

/-- The keyword scan yields the default genre or one of the listed genres. -/
theorem scanKeywords_mem : ∀ (l : List (String × String)) (s : String),
    scanKeywords s l = "general" ∨ scanKeywords s l ∈ l.map Prod.snd := by
  intro l
  induction l with
  | nil => intro s; exact Or.inl rfl
  | cons p rest ih =>
    intro s
    obtain ⟨k, g⟩ := p
    by_cases h : strContains s k = true
    · right
      simp [scanKeywords, h]
    · rw [Bool.not_eq_true] at h
      have hs : scanKeywords s ((k, g) :: rest) = scanKeywords s rest := by
        simp [scanKeywords, h]
      rw [hs]
      rcases ih s with h1 | h1
      · exact Or.inl h1
      · right
        simp only [List.map_cons, List.mem_cons]
        exact Or.inr h1

/-- Claim C1, amended: `assign_genre` lands in `AVAILABLE_GENRES` for every
name provided every value stored in the genre mapping is itself in
`AVAILABLE_GENRES`; a mapping hit is returned verbatim, so the claim's
unconditional form fails (see `assign_genre_out_of_set_map_value`). -/
theorem assign_genre_mem_available (name : String) (gm : List (String × String))
    (h : ∀ p ∈ gm, p.2 ∈ AVAILABLE_GENRES) :
    assign_genre name gm ∈ AVAILABLE_GENRES := by
  show (match List.lookup (pyLower (clean_channel_name name)) gm with
    | some g => g
    | none => scanKeywords (pyLower (clean_channel_name name)) keywordList) ∈ AVAILABLE_GENRES
  cases hl : List.lookup (pyLower (clean_channel_name name)) gm with
  | some g =>
    obtain ⟨p, hp, hpe⟩ := List.mem_map.mp (lookup_mem_snd gm _ g hl)
    exact hpe ▸ h p hp
  | none =>
    rcases scanKeywords_mem keywordList (pyLower (clean_channel_name name)) with h1 | h1
    · rw [h1]; decide
    · revert h1
      generalize scanKeywords (pyLower (clean_channel_name name)) keywordList = g
      intro h1
      have hall : ∀ g2 ∈ keywordList.map Prod.snd, g2 ∈ AVAILABLE_GENRES := by decide
      exact hall g h1

/-- Witness for `assign_genre_mem_available` at a concrete input. -/
theorem assign_genre_mem_available_witness : assign_genre "x" [] ∈ AVAILABLE_GENRES :=
  assign_genre_mem_available "x" [] (by simp)

/-- Counterexample to claim C1 as stated: with a genre mapping holding an
out-of-set value, a mapping hit returns that value, which is outside the
28-genre set. -/
theorem assign_genre_out_of_set_map_value :
    assign_genre "zzz" [("zzz", "bogus")] = "bogus" ∧ "bogus" ∉ AVAILABLE_GENRES := by
  constructor
  · decide
  · decide

/-- Claim C3, amended: `get_category` returns the first category of the map
(in order) one of whose keywords occurs in the lower-cased name, and the
literal default bucket is `"ALTRI"`, not `"OTHER"` (see
`get_category_default_is_altri`). -/
theorem get_category_first_match_or_altri (name : String) (ck : List (String × List String)) :
    match ck.find? (fun p => catMatches (pyLower name) p.2) with
    | some p => get_category name ck = p.1
    | none => get_category name ck = "ALTRI" := by
  unfold get_category
  induction ck with
  | nil => simp [categoryScan]
  | cons p rest ih =>
    obtain ⟨cat, kws⟩ := p
    by_cases h : catMatches (pyLower name) kws = true
    · rw [List.find?_cons_of_pos _ (by simpa using h)]
      simp [categoryScan, h]
    · rw [Bool.not_eq_true] at h
      rw [List.find?_cons_of_neg _ (by simp [h])]
      have hs : categoryScan (pyLower name) ((cat, kws) :: rest) = categoryScan (pyLower name) rest := by
        simp [categoryScan, h]
      rw [hs]
      exact ih

/-- Counterexample to claim C3 as stated: the no-match bucket is the
literal `"ALTRI"`, not `"OTHER"`, also on the claim's own instance. -/
theorem get_category_default_is_altri :
    get_category "Unknown Channel" [("SPORT", ["sky sport"])] = "ALTRI" ∧
    get_category "Unknown Channel" [("SPORT", ["sky sport"])] ≠ "OTHER" := by
  constructor
  · decide
  · decide

/-- The acceptance test applied to one logo key during the single pass of
`get_logo_url`: exact normalized match or bidirectional containment. -/
def logoAccepts (normalized_name key : String) : Bool :=
  normalized_name == normalize_channel_name key ||
  strContains (normalize_channel_name key) normalized_name ||
  strContains normalized_name (normalize_channel_name key)

/-- The logo loop returns the value of the first key accepted by
`logoAccepts`. -/
theorem logoLookup_find (nq : String) (logos : List (String × String)) :
    logoLookup nq logos = (logos.find? (fun p => logoAccepts nq p.1)).map Prod.snd := by
  induction logos with
  | nil => rfl
  | cons p rest ih =>
    obtain ⟨k, u⟩ := p
    by_cases h1 : (nq == normalize_channel_name k) = true
    · rw [List.find?_cons_of_pos _ (by simp [logoAccepts, h1])]
      simp [logoLookup, h1]
    · rw [Bool.not_eq_true] at h1
      by_cases h2 : (strContains (normalize_channel_name k) nq ||
          strContains nq (normalize_channel_name k)) = true
      · rw [List.find?_cons_of_pos _ (by simp only [logoAccepts, h1, Bool.false_or]; simpa using h2)]
        have hs : logoLookup nq ((k, u) :: rest) = some u := by
          simp only [logoLookup, h1]
          simp only [Bool.or_eq_true] at h2
          rcases h2 with h2 | h2 <;> simp [h2]
        rw [hs]
        rfl
      · rw [Bool.not_eq_true, Bool.or_eq_false_iff] at h2
        rw [List.find?_cons_of_neg _ (by simp [logoAccepts, h1, h2.1, h2.2])]
        have hs : logoLookup nq ((k, u) :: rest) = logoLookup nq rest := by
          simp [logoLookup, h1, h2.1, h2.2]
        rw [hs, ih]

/-- The placeholder URL is never the empty string. -/
theorem placeholderLogo_ne_empty (name : String) : placeholderLogo name ≠ "" := by
  intro h
  have hl := congrArg String.length h
  rw [placeholderLogo] at hl
  rw [String.length_append, String.length_append] at hl
  have h1 : ("https://placehold.co/400x400?text=" : String).length = 34 := rfl
  have h2 : ("&.png" : String).length = 5 := rfl
  have h3 : ("" : String).length = 0 := rfl
  rw [h1, h2, h3] at hl
  omega

/-- Claim C5, amended: `get_logo_url` makes a single pass over the map in
iteration order and returns the URL of the first key that matches exactly
or by bidirectional containment — an earlier containment-only key therefore
beats a later exact key (see `get_logo_url_partial_beats_exact`); when no
key is accepted, a non-empty placeholder synthesized from the cleaned name
is returned. -/
theorem get_logo_url_first_accepted_key (name : String) (logos : List (String × String)) :
    (match logos.find? (fun p => logoAccepts (normalize_channel_name name) p.1) with
     | some p => get_logo_url name logos = p.2
     | none => get_logo_url name logos = placeholderLogo name) ∧
    placeholderLogo name ≠ "" := by
  constructor
  · cases h : logos.find? (fun p => logoAccepts (normalize_channel_name name) p.1) with
    | some p => simp [get_logo_url, logoLookup_find, h]
    | none => simp [get_logo_url, logoLookup_find, h]
  · exact placeholderLogo_ne_empty name

/-- Counterexample to claim C5 as stated: the map has a key normalizing
exactly to the query, yet the URL of an earlier containment-only key is
returned. -/
theorem get_logo_url_partial_beats_exact :
    get_logo_url "sky sport" [("sky", "u1"), ("sky sport", "u2")] = "u1" ∧
    (∃ p ∈ [("sky", "u1"), ("sky sport", "u2")],
      normalize_channel_name p.1 = normalize_channel_name "sky sport" ∧
      p.2 ≠ get_logo_url "sky sport" [("sky", "u1"), ("sky sport", "u2")]) := by
  constructor
  · decide
  · decide

/-- Claim C9, amended: `clean_channel_name` strips a trailing
`<whitespace>.<letter>` marker — any Python whitespace character, not only
a space (see `clean_channel_name_tab_marker`) — from names longer than 3,
and leaves every name without such a marker unchanged. -/
theorem clean_channel_name_marker_spec :
    (∀ (base : String) (w c : Char), pyIsSpace w = true → isAsciiAlpha c = true → base ≠ "" →
      clean_channel_name (base ++ (⟨[w, '.', c]⟩ : String)) = base) ∧
    (∀ name : String,
      (∀ (base : String) (w c : Char), pyIsSpace w = true → isAsciiAlpha c = true → base ≠ "" →
        name ≠ base ++ (⟨[w, '.', c]⟩ : String)) →
      clean_channel_name name = name) := by
  constructor
  · intro base w c hw hc hb
    have hdata : (base ++ (⟨[w, '.', c]⟩ : String)).data = base.data ++ [w, '.', c] := rfl
    have hbd : base.data ≠ [] := by
      intro h0
      exact hb (string_eq_of_data base "" h0)
    have hpos : 0 < base.data.length := List.length_pos.mpr hbd
    have hlen : (base.data ++ [w, '.', c]).length = base.data.length + 3 := by simp
    have hidx : (base.data ++ [w, '.', c]).length - 3 = base.data.length := by
      rw [hlen]
      omega
    have hcond : 3 < (base ++ (⟨[w, '.', c]⟩ : String)).data.length ∧
        markerCheck ((base ++ (⟨[w, '.', c]⟩ : String)).data.drop
          ((base ++ (⟨[w, '.', c]⟩ : String)).data.length - 3)) := by
      rw [hdata, hidx, hlen]
      constructor
      · omega
      · rw [List.drop_left]
        simp [markerCheck, hw, hc]
    rw [clean_channel_name, if_pos hcond]
    apply string_eq_of_data
    rw [hdata, hidx, List.take_left]
  · intro name hno
    rw [clean_channel_name]
    by_cases hcond : 3 < name.data.length ∧
        markerCheck (name.data.drop (name.data.length - 3))
    · exfalso
      obtain ⟨hlen, hmk⟩ := hcond
      have hdl : (name.data.drop (name.data.length - 3)).length = 3 := by
        rw [List.length_drop]
        omega
      obtain ⟨a, b, c, habc⟩ := list_len3 _ hdl
      rw [habc] at hmk
      simp only [markerCheck, Bool.and_eq_true, beq_iff_eq] at hmk
      obtain ⟨⟨hw, hbdot⟩, hc⟩ := hmk
      subst hbdot
      have hsplit : name.data = name.data.take (name.data.length - 3) ++ [a, '.', c] := by
        conv_lhs => rw [← List.take_append_drop (name.data.length - 3) name.data]
        rw [habc]
      have hbase_ne : (⟨name.data.take (name.data.length - 3)⟩ : String) ≠ "" := by
        intro h0
        have hd0 : name.data.take (name.data.length - 3) = ([] : List Char) :=
          congrArg String.data h0
        have hl0 := congrArg List.length hd0
        rw [List.length_take] at hl0
        simp only [List.length_nil] at hl0
        omega
      have hfin : name.data =
          ((⟨name.data.take (name.data.length - 3)⟩ : String) ++ (⟨[a, '.', c]⟩ : String)).data := by
        show name.data = name.data.take (name.data.length - 3) ++ [a, '.', c]
        exact hsplit
      exact hno ⟨name.data.take (name.data.length - 3)⟩ a c hw hc hbase_ne
        (string_eq_of_data _ _ hfin)
    · rw [if_neg hcond]

/-- Witness for `clean_channel_name_marker_spec` at concrete inputs: the
space-dot-letter marker of `"Rai 1 .I"` is stripped, and the markerless
name `"ab"` is unchanged. -/
theorem clean_channel_name_marker_spec_witness :
    clean_channel_name ("Rai 1" ++ (⟨[' ', '.', 'I']⟩ : String)) = "Rai 1" ∧
    clean_channel_name "ab" = "ab" := by
  constructor
  · exact clean_channel_name_marker_spec.1 "Rai 1" ' ' 'I' (by decide) (by decide) (by decide)
  · refine clean_channel_name_marker_spec.2 "ab" ?_
    intro base w c hw hc hb heq
    have hd : ("ab" : String).data = base.data ++ [w, '.', c] := congrArg String.data heq
    have hI : ("ab" : String).data = ['a', 'b'] := rfl
    rw [hI] at hd
    have hlen := congrArg List.length hd
    rw [List.length_append] at hlen
    simp only [List.length_cons, List.length_nil] at hlen
    omega

/-- Counterexample to claim C9 as stated: `"ab\t.X"` carries a tab, not a
space, before the dot — so by the claim it should be returned unchanged —
yet the code strips it, because the regex class is whitespace. -/
theorem clean_channel_name_tab_marker :
    clean_channel_name "ab\t.X" = "ab" ∧ clean_channel_name "ab\t.X" ≠ "ab\t.X" ∧
    (∀ (base : String) (c : Char), isAsciiAlpha c = true →
      "ab\t.X" ≠ base ++ (⟨[' ', '.', c]⟩ : String)) := by
  refine ⟨by decide, by decide, ?_⟩
  intro base c hc heq
  have hd : ("ab\t.X" : String).data = base.data ++ [' ', '.', c] := congrArg String.data heq
  have hI : ("ab\t.X" : String).data = ['a', 'b', '\t', '.', 'X'] := rfl
  rw [hI] at hd
  have hlen := congrArg List.length hd
  rw [List.length_append] at hlen
  simp only [List.length_cons, List.length_nil] at hlen
  obtain ⟨x, y, hxy⟩ := list_len2 base.data (by omega)
  rw [hxy] at hd
  simp only [List.cons_append, List.nil_append, List.cons.injEq] at hd
  exact absurd hd.2.2.1 (by decide)

/-- A constant clock / random source for concrete build runs. -/
def zeroFn : Nat → Nat := fun _ => 0

/-- Claim C2, amended: a non-empty genre hint outside `AVAILABLE_GENRES` is
not ignored — the build short-circuits on the hint, never consults normal
resolution, and clamps the hint to `"general"` (see
`invalid_hint_not_fallthrough` for an entry where normal resolution would
have produced a different genre). -/
theorem invalid_hint_clamped_general (c : RawChannel) (gm : List (String × String)) (g : String)
    (hg : c.genre = some g) (hne : g ≠ "") (hout : g ∉ AVAILABLE_GENRES) :
    resolveGenre c gm = "general" := by
  rw [resolveGenre, hg]
  simp only [hne, if_false]
  exact if_neg hout

/-- Witness for `invalid_hint_clamped_general` at a concrete input. -/
theorem invalid_hint_clamped_general_witness :
    resolveGenre ⟨"Foo", "u", some "bogus"⟩ [] = "general" :=
  invalid_hint_clamped_general ⟨"Foo", "u", some "bogus"⟩ [] "bogus" rfl (by decide) (by decide)

/-- Build state with one raw entry named `"Sky Sport X"` carrying the
out-of-set hint `"bogus"`. -/
def stHintA : PState :=
  { config := ⟨"mf", "pw"⟩, headersFile := defaultHeaders, genreFile := [],
    iconsFile := [], channelsFile := [], sampleFile := some [⟨"Sky Sport X", "u", some "bogus"⟩] }

/-- The same build state with the hint absent. -/
def stHintB : PState :=
  { config := ⟨"mf", "pw"⟩, headersFile := defaultHeaders, genreFile := [],
    iconsFile := [], channelsFile := [], sampleFile := some [⟨"Sky Sport X", "u", none⟩] }

/-- Counterexample to claim C2 as stated: with the non-empty out-of-set
hint `"bogus"` the build records genre `"general"`, whereas with no hint
normal resolution records `"sports"` — the hint is not treated as if
absent. -/
theorem invalid_hint_not_fallthrough :
    "bogus" ∉ AVAILABLE_GENRES ∧ ("bogus" : String) ≠ "" ∧
    (generate_channel_list stHintA none zeroFn zeroFn true true true true).2.1.channelsFile.map
      Channel.genre = ["general"] ∧
    (generate_channel_list stHintB none zeroFn zeroFn true true true true).2.1.channelsFile.map
      Channel.genre = ["sports"] ∧
    (["general"] : List String) ≠ ["sports"] := by
  refine ⟨by decide, by decide, by decide, by decide, by decide⟩

/-- Claim C6, amended: when the snapshot write fails the build returns
failure, the persisted snapshot and the cache slot are unchanged — but the
genre mapping was already persisted before the snapshot write, so the
persisted GenreMap can differ from before the build (see
`build_failure_genremap_changed`). -/
theorem build_failure_keeps_snapshot_and_cache (st : PState) (cache : Option (List Meta))
    (ts rs : Nat → Nat) (hOk sOk gOk : Bool) :
    (generate_channel_list st cache ts rs hOk sOk gOk false).1 = false ∧
    (generate_channel_list st cache ts rs hOk sOk gOk false).2.1.channelsFile = st.channelsFile ∧
    (generate_channel_list st cache ts rs hOk sOk gOk false).2.2 = cache := by
  rw [generate_channel_list]
  by_cases h : st.config.mediaflow_url = "" ∨ st.config.mediaflow_psw = ""
  · rw [if_pos h]
    exact ⟨rfl, rfl, rfl⟩
  · rw [if_neg h]
    exact ⟨rfl, rfl, rfl⟩

/-- Build state whose genre mapping is empty and whose sample file holds
one entry not yet present in the mapping. -/
def stGenre : PState :=
  { config := ⟨"mf", "pw"⟩, headersFile := defaultHeaders, genreFile := [],
    iconsFile := [], channelsFile := [], sampleFile := some [⟨"Rai 1", "u", some "general"⟩] }

/-- Counterexample to claim C6 as stated: the snapshot write fails, the
build reports failure, yet the persisted GenreMap is no longer what it was
before the build started. -/
theorem build_failure_genremap_changed :
    (generate_channel_list stGenre none zeroFn zeroFn true true true false).1 = false ∧
    (generate_channel_list stGenre none zeroFn zeroFn true true true false).2.1.genreFile =
      [("Rai 1", "general")] ∧
    stGenre.genreFile = [] ∧
    ([("Rai 1", "general")] : List (String × String)) ≠ [] := by
  refine ⟨by decide, by decide, by decide, by decide⟩

/-- Closed form of the pagination loop: starting from any cursor and
accumulator, it appends the flattening of the received pages and advances
the cursor by the sum of their sizes. -/
theorem fetchLoop_spec : ∀ (responses : List (Option (List UpItem))) (cursor : Nat) (acc : List UpItem),
    fetchLoop responses cursor acc =
      (acc ++ (receivedPages responses).flatten,
       cursor + ((receivedPages responses).map List.length).sum) := by
  intro responses
  induction responses with
  | nil => intro cursor acc; simp [fetchLoop, receivedPages]
  | cons r rest ih =>
    intro cursor acc
    match r with
    | none => simp [fetchLoop, receivedPages]
    | some [] => simp [fetchLoop, receivedPages]
    | some (i :: it) =>
      rw [fetchLoop, receivedPages, ih]
      simp [List.flatten_cons, List.append_assoc]
      omega

/-- Claim C8: `get_channel_list` accumulates exactly the concatenation of
the longest prefix of non-empty successful pages (so a failed call returns
what was accumulated so far), its length is the sum of the received page
sizes, and the loop's final cursor equals that same sum — the cursor having
advanced by each received page's item count. -/
theorem get_channel_list_concat_received_pages (responses : List (Option (List UpItem))) :
    get_channel_list responses = (receivedPages responses).flatten ∧
    (get_channel_list responses).length = ((receivedPages responses).map List.length).sum ∧
    (fetchLoop responses 0 []).2 = ((receivedPages responses).map List.length).sum := by
  have h := fetchLoop_spec responses 0 []
  refine ⟨?_, ?_, ?_⟩
  · rw [get_channel_list, h]
    simp
  · rw [get_channel_list, h]
    simp [List.length_flatten]
  · rw [h]
    simp

/-- Claim C10: an entry whose url is absent or empty contributes no lines
to the playlist (no EXTINF, headers, or URL), and removing it from the
input leaves the generated file unchanged whenever some other entry
remains. -/
theorem generate_m3u_skips_empty_url (item : M3UItem) (cf cr : List String)
    (ck : List (String × List String)) (cl : List (String × String))
    (xs ys : List M3UItem) (hu : item.url = none ∨ item.url = some "") :
    entryLines cf cr ck cl item = [] ∧
    (xs ++ ys ≠ [] →
      generate_m3u (xs ++ item :: ys) cf cr ck cl = generate_m3u (xs ++ ys) cf cr ck cl) := by
  have he : entryLines cf cr ck cl item = [] := by
    rcases hu with h | h <;> simp [entryLines, h]
  refine ⟨he, ?_⟩
  intro hne
  have hne1 : xs ++ item :: ys ≠ [] := by simp
  rw [generate_m3u, generate_m3u, if_neg hne1, if_neg hne]
  simp [List.map_append, List.flatten_append, he]

/-- Witness for `generate_m3u_skips_empty_url` at concrete inputs: a
url-less entry writes nothing and its removal leaves the playlist
identical. -/
theorem generate_m3u_skips_empty_url_witness :
    entryLines [] [] [] [] ⟨some "A", none⟩ = [] ∧
    generate_m3u [⟨some "B", some "u"⟩, ⟨some "A", none⟩] [] [] [] [] =
      generate_m3u [⟨some "B", some "u"⟩] [] [] [] [] := by
  have h := generate_m3u_skips_empty_url ⟨some "A", none⟩ [] [] [] []
    [⟨some "B", some "u"⟩] [] (Or.inl rfl)
  exact ⟨h.1, h.2 (by decide)⟩

/-- A cache miss with complete config serves the projection of the
persisted snapshot. -/
theorem get_all_channels_none (st : PState)
    (h : ¬(st.config.mediaflow_url = "" ∨ st.config.mediaflow_psw = "")) :
    (get_all_channels none st).1 = st.channelsFile.map (metaOf st) := by
  rw [get_all_channels]
  rw [if_neg h]
  by_cases h2 : st.channelsFile = []
  · rw [if_pos h2, h2]
    rfl
  · rw [if_neg h2]

/-- Claim C7: two `get_all_channels` calls with no intervening invalidation
and unchanged persisted state return identical results; and a successful
build hands back an empty cache slot, after which the next call serves
exactly the projection of the newly persisted snapshot. -/
theorem cache_get_stable_and_reflects_build (cache : Option (List Meta)) (st : PState) :
    (get_all_channels cache st).1 = (get_all_channels (get_all_channels cache st).2 st).1 ∧
    (∀ (ts rs : Nat → Nat) (hOk sOk gOk : Bool) (st2 : PState) (c2 : Option (List Meta)),
      generate_channel_list st cache ts rs hOk sOk gOk true = (true, st2, c2) →
      c2 = none ∧ (get_all_channels c2 st2).1 = st2.channelsFile.map (metaOf st2)) := by
  constructor
  · cases cache with
    | some v => rfl
    | none =>
      by_cases h1 : st.config.mediaflow_url = "" ∨ st.config.mediaflow_psw = ""
      · simp [get_all_channels, h1]
      · by_cases h2 : st.channelsFile = []
        · simp [get_all_channels, h1, h2]
        · simp [get_all_channels, h1, h2]
  · intro ts rs hOk sOk gOk st2 c2 heq
    rw [generate_channel_list] at heq
    by_cases h1 : st.config.mediaflow_url = "" ∨ st.config.mediaflow_psw = ""
    · rw [if_pos h1] at heq
      simp at heq
    · rw [if_neg h1] at heq
      simp only [if_true, Prod.mk.injEq, true_and] at heq
      obtain ⟨hst, hc⟩ := heq
      subst hst
      subst hc
      exact ⟨rfl, get_all_channels_none _ h1⟩

/-- Build state with complete config and one sample entry, for exercising
a successful build. -/
def stBuild : PState :=
  { config := ⟨"mf.example", "secret"⟩, headersFile := defaultHeaders, genreFile := [],
    iconsFile := [], channelsFile := [],
    sampleFile := some [⟨"Sky Sport .I", "https://x/sky.m3u8", none⟩] }

/-- Witness for `cache_get_stable_and_reflects_build`: after a concrete
successful build, the next cache miss serves the new snapshot's
projection. -/
theorem cache_get_stable_and_reflects_build_witness :
    (get_all_channels (generate_channel_list stBuild none zeroFn zeroFn true true true true).2.2
        (generate_channel_list stBuild none zeroFn zeroFn true true true true).2.1).1 =
      ((generate_channel_list stBuild none zeroFn zeroFn true true true true).2.1).channelsFile.map
        (metaOf ((generate_channel_list stBuild none zeroFn zeroFn true true true true).2.1)) :=
  ((cache_get_stable_and_reflects_build none stBuild).2 zeroFn zeroFn true true true
    (generate_channel_list stBuild none zeroFn zeroFn true true true true).2.1
    (generate_channel_list stBuild none zeroFn zeroFn true true true true).2.2 rfl).2

/-- Claim C4, amended: when the search string is non-empty the catalog
serves exactly the channels whose display name contains it
case-insensitively, taken from the whole channel list — the genre filter is
discarded rather than narrowed (see `catalog_search_ignores_genre`). -/
theorem catalog_search_replaces_genre_filter (id s : String) (cache : Option (List Meta))
    (st : PState) (hid : pyStartsWith id "mediaflow-" = true) (hs : s ≠ "") :
    (catalog "tv" id (some s) cache st).1 = (get_all_channels cache st).1.filter (searchPred s) := by
  rw [catalog, if_pos ⟨rfl, hid⟩]
  simp only [if_neg hs]

/-- Serving state with one persisted channel of genre `"news"` named
`"Sky Sport"`. -/
def stCat : PState :=
  { config := ⟨"mf", "pw"⟩, headersFile := [], genreFile := [], iconsFile := [],
    channelsFile := [⟨"id1", "Sky Sport", "https://x/sky.m3u8", "news", "logo"⟩],
    sampleFile := none }

/-- Witness for `catalog_search_replaces_genre_filter` at a concrete
query. -/
theorem catalog_search_replaces_genre_filter_witness :
    (catalog "tv" "mediaflow-sports" (some "sky") none stCat).1 =
      (get_all_channels none stCat).1.filter (searchPred "sky") :=
  catalog_search_replaces_genre_filter "mediaflow-sports" "sky" none stCat (by decide) (by decide)

/-- Counterexample to claim C4 as stated: a catalog query for genre
`"sports"` with search `"sky"` returns a channel whose genre list is
`["news"]` — the genre filter is not applied to the searched result. -/
theorem catalog_search_ignores_genre :
    (catalog "tv" "mediaflow-sports" (some "sky") none stCat).1.map Meta.genres = [["news"]] ∧
    ¬ ("sports" ∈ (["news"] : List String)) := by
  constructor
  · decide
  · decide
